import Mathlib

/-!
Verification development for the healthcare job scraper core:
the pay-rate normalizer (src/parsers/pay_normalizer.py), the record store
(src/database/connection.py) and the fetch governor (src/scrapers/base_scraper.py).

Python strings are modelled as `List Char` / `String`, `Decimal` as `ℚ`
(exact decimal arithmetic), `datetime.now()` as a caller-supplied `Nat`
clock, and raised exceptions as `Except String`.
-/

namespace Scraper

/-! ## A small backtracking regex engine

The normalizer uses `re.search` / `re.findall` with four concrete patterns.
We embed exactly the regex features those patterns use: character classes,
ordered alternation, optional parts, greedy star/plus over a character
class, and numbered capture groups.  Matching is continuation-passing with
backtracking, reproducing Python's leftmost, greedy-with-backtracking
semantics for these constructs. -/

/-- Regular expressions over the constructs used by the pay patterns. -/
inductive RE where
  | eps : RE
  | cls (p : Char → Bool) : RE
  | seq (a b : RE) : RE
  | alt (a b : RE) : RE
  | opt (a : RE) : RE
  | star (p : Char → Bool) : RE
  | plus (p : Char → Bool) : RE
  | grp (i : Nat) (a : RE) : RE

/-- Captured groups: group index paired with the captured characters. -/
abbrev Caps := List (Nat × List Char)

/-- Length of the maximal prefix of characters satisfying `p`. -/
def maxTake (p : Char → Bool) : List Char → Nat
  | [] => 0
  | c :: cs => if p c then maxTake p cs + 1 else 0

/-- Backtracking helper for greedy star: try dropping `n` characters,
then `n-1`, ... down to `0`, returning the first success. -/
def tryFrom (k : List Char → Option α) (cs : List Char) : Nat → Option α
  | 0 => k cs
  | n + 1 =>
    match k (cs.drop (n + 1)) with
    | some r => some r
    | none => tryFrom k cs n

/-- Backtracking helper for greedy plus: like `tryFrom` but requires at
least one character to be consumed. -/
def tryFrom1 (k : List Char → Option α) (cs : List Char) : Nat → Option α
  | 0 => none
  | n + 1 =>
    match k (cs.drop (n + 1)) with
    | some r => some r
    | none => tryFrom1 k cs n

/-- Continuation-passing matcher with backtracking, Python `re` semantics
for the constructs of `RE` (ordered alternation, greedy option/star/plus). -/
def mat : RE → List Char → Caps → (List Char → Caps → Option α) → Option α
  | .eps, cs, caps, k => k cs caps
  | .cls p, cs, caps, k =>
    match cs with
    | [] => none
    | c :: rest => if p c then k rest caps else none
  | .seq a b, cs, caps, k => mat a cs caps (fun cs' caps' => mat b cs' caps' k)
  | .alt a b, cs, caps, k =>
    match mat a cs caps k with
    | some r => some r
    | none => mat b cs caps k
  | .opt a, cs, caps, k =>
    match mat a cs caps k with
    | some r => some r
    | none => k cs caps
  | .star p, cs, caps, k => tryFrom (fun cs' => k cs' caps) cs (maxTake p cs)
  | .plus p, cs, caps, k => tryFrom1 (fun cs' => k cs' caps) cs (maxTake p cs)
  | .grp i a, cs, caps, k =>
    mat a cs caps (fun cs' caps' => k cs' ((i, cs.take (cs.length - cs'.length)) :: caps'))

/-- Attempt a match anchored at the start of `cs`; on success return the
rest of the input and the captures. -/
def matchAt (re : RE) (cs : List Char) : Option (List Char × Caps) :=
  mat re cs [] (fun rest caps => some (rest, caps))

/-- Python `re.search`: try the pattern at each start position, left to
right, returning the captures of the first match. -/
def search (re : RE) : List Char → Option Caps
  | [] => (matchAt re []).map Prod.snd
  | c :: rest =>
    match matchAt re (c :: rest) with
    | some (_, caps) => some caps
    | none => search re rest

/-- Fuelled worker for `findall`. -/
def findallAux (re : RE) : Nat → List Char → List (List Char)
  | 0, _ => []
  | fuel + 1, cs =>
    match matchAt re cs with
    | some (rest, caps) =>
      let g := (match caps.find? (fun x => x.1 == 1) with
                | some x => x.2
                | none => [])
      if rest.length < cs.length then g :: findallAux re fuel rest
      else
        match cs with
        | [] => [g]
        | _ :: t => g :: findallAux re fuel t
    | none =>
      match cs with
      | [] => []
      | _ :: t => findallAux re fuel t

/-- Python `re.findall` for a pattern with one capture group: all
non-overlapping matches left to right, returning group 1 of each. -/
def findall (re : RE) (cs : List Char) : List (List Char) :=
  findallAux re (cs.length + 1) cs

/-- Look up the text captured by group `i` (None when the group did not
participate in the match). -/
def capGet (caps : Caps) (i : Nat) : Option (List Char) :=
  match caps.find? (fun x => x.1 == i) with
  | some x => some x.2
  | none => none

/-- Single literal character. -/
def chr (c : Char) : RE := .cls (fun x => x == c)

/-- Literal character sequence. -/
def litL : List Char → RE
  | [] => .eps
  | c :: cs => .seq (chr c) (litL cs)

/-- Literal string. -/
def strLit (s : String) : RE := litL s.toList

/-- Sequence of regexes. -/
def seqs : List RE → RE
  | [] => .eps
  | [r] => r
  | r :: rs => .seq r (seqs rs)

/-- Ordered alternation of a list of regexes. -/
def alts : List RE → RE
  | [] => .cls (fun _ => false)
  | [r] => r
  | r :: rs => .alt r (alts rs)

/-- Python regex `\s` restricted to ASCII whitespace. -/
def pyWs (c : Char) : Bool :=
  c == ' ' || c == '\t' || c == '\n' || c == '\r' || c == '\x0b' || c == '\x0c'

/-- Character class `[\d,]`. -/
def digitComma (c : Char) : Bool := c.isDigit || c == ','

/-- Regex `\s*`. -/
def spaces : RE := .star pyWs

/-- Capture group `i` for `([\d,]+(?:\.\d{2})?)`. -/
def numGrp (i : Nat) : RE :=
  .grp i (.seq (.plus digitComma)
    (.opt (seqs [chr '.', .cls (fun c => c.isDigit), .cls (fun c => c.isDigit)])))

/-- Regex `(?:-|to|–)?` (range delimiter). -/
def dashOpt : RE := .opt (alts [strLit "-", strLit "to", strLit "–"])

/-- Regex `(?:k|K)?`. -/
def kOpt : RE := .opt (alts [chr 'k', chr 'K'])

/-- HOURLY_PATTERN from the normalizer:
`\$\s*([\d,]+(?:\.\d{2})?)\s*(?:-|to|–)?\s*\$?\s*([\d,]+(?:\.\d{2})?)?\s*(?:per|an|/|a)?\s*h(?:ou)?r`. -/
def HOURLY_PATTERN : RE := seqs [
  chr '$', spaces, numGrp 1, spaces, dashOpt, spaces, .opt (chr '$'), spaces,
  .opt (numGrp 2), spaces,
  .opt (alts [strLit "per", strLit "an", strLit "/", strLit "a"]), spaces,
  chr 'h', .opt (strLit "ou"), chr 'r']

/-- WEEKLY_PATTERN from the normalizer:
`\$\s*([\d,]+(?:\.\d{2})?)\s*(?:-|to|–)?\s*\$?\s*([\d,]+(?:\.\d{2})?)?\s*(?:/|per|a)?\s*(?:wk|week)`. -/
def WEEKLY_PATTERN : RE := seqs [
  chr '$', spaces, numGrp 1, spaces, dashOpt, spaces, .opt (chr '$'), spaces,
  .opt (numGrp 2), spaces,
  .opt (alts [strLit "/", strLit "per", strLit "a"]), spaces,
  alts [strLit "wk", strLit "week"]]

/-- ANNUAL_PATTERN from the normalizer:
`\$\s*([\d,]+(?:\.\d{2})?)\s*(?:k|K)?\s*(?:-|to|–)?\s*\$?\s*([\d,]+(?:\.\d{2})?)?(?:k|K)?\s*(?:per|a|/)?\s*(?:year|yr|annual)`. -/
def ANNUAL_PATTERN : RE := seqs [
  chr '$', spaces, numGrp 1, spaces, kOpt, spaces, dashOpt, spaces, .opt (chr '$'), spaces,
  .opt (numGrp 2), kOpt, spaces,
  .opt (alts [strLit "per", strLit "a", strLit "/"]), spaces,
  alts [strLit "year", strLit "yr", strLit "annual"]]

/-- SIMPLE_DOLLAR from the normalizer: `\$\s*([\d,]+(?:\.\d{2})?)`. -/
def SIMPLE_DOLLAR : RE := seqs [chr '$', spaces, numGrp 1]

end Scraper

namespace Scraper

/-! ## Pay rate normalizer (src/parsers/pay_normalizer.py) -/

/-- Strip ASCII whitespace from both ends of a character list
(Python `str.strip()`). -/
def stripL (cs : List Char) : List Char :=
  ((cs.dropWhile pyWs).reverse.dropWhile pyWs).reverse

/-- Value of a digit string. -/
def natOfDigits (cs : List Char) : Nat :=
  cs.foldl (fun n c => n * 10 + (c.toNat - '0'.toNat)) 0

/-- Parse a plain decimal literal (digits with at most one dot, at least
one digit), the fragment of `Decimal(...)` reachable from the regex
groups; anything else is the `InvalidOperation` outcome `none`. -/
def parseDecimal (cs : List Char) : Option ℚ :=
  if cs.all (fun c => c.isDigit || c == '.') ∧ cs.count '.' ≤ 1 ∧
      cs.any (fun c => c.isDigit) then
    let ip := cs.takeWhile (fun c => c ≠ '.')
    let fp := (cs.dropWhile (fun c => c ≠ '.')).drop 1
    some ((natOfDigits ip : ℚ) + (natOfDigits fp : ℚ) / ((10 : ℚ) ^ fp.length))
  else none

/-- PayNormalizer.clean_number: strip commas and spaces, then convert to
an exact decimal; parse failures yield `none`. -/
def clean_number (numStr : List Char) : Option ℚ :=
  if numStr = [] then none
  else parseDecimal (stripL (numStr.filter (fun c => !(c == ',' || c == ' '))))

/-- Banker's rounding to an integer (`ROUND_HALF_EVEN`, as Python's
`round` applies to `Decimal`). -/
def roundHalfEven (x : ℚ) : ℤ :=
  let n := ⌊x⌋
  let f := x - (n : ℚ)
  if f > 1 / 2 then n + 1
  else if f < 1 / 2 then n
  else if Even n then n else n + 1

/-- Python `round(x, 2)` on exact decimals. -/
def round2 (x : ℚ) : ℚ := (roundHalfEven (100 * x) : ℚ) / 100

/-- Division, raising `DivisionByZero` as the Python `Decimal` quotient
would. -/
def qdiv (a b : ℚ) : Except String ℚ :=
  if b = 0 then .error "DivisionByZero" else .ok (a / b)

/-- Normalizer configuration: assumed weekly and annual hours (defaults
36 and 2080). -/
structure PayNormalizer where
  weekly_hours : ℚ
  annual_hours : ℚ
deriving Repr, DecidableEq

/-- Structured result of a successful normalization: the dict
`{low, high, type, original}`. -/
structure PayResult where
  low : ℚ
  high : ℚ
  ptype : String
  original : String
deriving Repr, DecidableEq

/-- Hourly branch of `normalize`: on an HOURLY_PATTERN match with a
truthy low bound, return the bounds unconverted; a `None`/zero low falls
through (result `none`). -/
def tryHourly (cs : List Char) (ps : String) : Option PayResult :=
  match search HOURLY_PATTERN cs with
  | none => none
  | some caps =>
    let low? := clean_number ((capGet caps 1).getD [])
    let high? := match capGet caps 2 with
      | some g2 => clean_number g2
      | none => low?
    match low? with
    | none => none
    | some low =>
      if low = 0 then none
      else
        let high := match high? with
          | some h => if h = 0 then low else h
          | none => low
        some ⟨low, high, "hourly", ps⟩

/-- Weekly branch of `normalize`: divide the bounds by the assumed weekly
hours and round to cents; a falsy high reuses the converted low. -/
def tryWeekly (pn : PayNormalizer) (cs : List Char) (ps : String) :
    Except String (Option PayResult) :=
  match search WEEKLY_PATTERN cs with
  | none => .ok none
  | some caps =>
    let low? := clean_number ((capGet caps 1).getD [])
    let high? := match capGet caps 2 with
      | some g2 => clean_number g2
      | none => low?
    match low? with
    | none => .ok none
    | some low =>
      if low = 0 then .ok none
      else
        match qdiv low pn.weekly_hours with
        | .error e => .error e
        | .ok hl =>
          match high? with
          | some h =>
            if h = 0 then .ok (some ⟨round2 hl, round2 hl, "weekly_converted", ps⟩)
            else
              match qdiv h pn.weekly_hours with
              | .error e => .error e
              | .ok hh => .ok (some ⟨round2 hl, round2 hh, "weekly_converted", ps⟩)
          | none => .ok (some ⟨round2 hl, round2 hl, "weekly_converted", ps⟩)

/-- The annual branch's k-shorthand adjustment: a truthy bound below
1000 is multiplied by 1000 when a `k` appears anywhere in the lowered
string. When group 2 is absent the high bound reuses the
already-adjusted low and this adjustment is applied to it a second time,
exactly as the source does. -/
def kAdjust (hasK : Bool) : Option ℚ → Option ℚ
  | none => none
  | some l => some (if l ≠ 0 ∧ hasK = true ∧ l < 1000 then l * 1000 else l)

/-- Annual branch of `normalize`: on an ANNUAL_PATTERN match, k-adjust
both bounds, divide by the assumed annual hours and round to cents; a
falsy low falls through and a falsy high reuses the converted low. -/
def tryAnnual (pn : PayNormalizer) (hasK : Bool) (cs : List Char) (ps : String) :
    Except String (Option PayResult) :=
  match search ANNUAL_PATTERN cs with
  | none => .ok none
  | some caps =>
    match kAdjust hasK (clean_number ((capGet caps 1).getD [])) with
    | none => .ok none
    | some low =>
      if low = 0 then .ok none
      else
        match qdiv low pn.annual_hours with
        | .error e => .error e
        | .ok hl =>
          match kAdjust hasK (match capGet caps 2 with
              | some g2 => clean_number g2
              | none => kAdjust hasK (clean_number ((capGet caps 1).getD []))) with
          | some h =>
            if h = 0 then .ok (some ⟨round2 hl, round2 hl, "annual_converted", ps⟩)
            else
              match qdiv h pn.annual_hours with
              | .error e => .error e
              | .ok hh => .ok (some ⟨round2 hl, round2 hh, "annual_converted", ps⟩)
          | none => .ok (some ⟨round2 hl, round2 hl, "annual_converted", ps⟩)

/-- Bare dollar amounts extracted by the fallback: `findall` of
SIMPLE_DOLLAR over the original (unlowered) string, keeping only amounts
that clean to a truthy (nonzero) decimal. -/
def payValues (ps : String) : List ℚ :=
  (findall SIMPLE_DOLLAR ps.toList).filterMap
    (fun m => match clean_number m with
      | some v => if v = 0 then none else some v
      | none => none)

/-- Fallback branch of `normalize`: classify by the magnitude of the
minimum extracted amount — under 200 hourly as-is, under 5000 weekly
conversion, otherwise annual conversion. -/
def tryFallback (pn : PayNormalizer) (ps : String) :
    Except String (Option PayResult) :=
  match payValues ps with
  | [] => .ok none
  | v :: vs =>
    let min_val := vs.foldl min v
    let max_val := vs.foldl max v
    if min_val < 200 then .ok (some ⟨min_val, max_val, "inferred_hourly", ps⟩)
    else if min_val < 5000 then
      match qdiv min_val pn.weekly_hours, qdiv max_val pn.weekly_hours with
      | .ok hl, .ok hh => .ok (some ⟨round2 hl, round2 hh, "inferred_weekly", ps⟩)
      | .error e, _ => .error e
      | _, .error e => .error e
    else
      match qdiv min_val pn.annual_hours, qdiv max_val pn.annual_hours with
      | .ok hl, .ok hh => .ok (some ⟨round2 hl, round2 hh, "inferred_annual", ps⟩)
      | .error e, _ => .error e
      | _, .error e => .error e

/-- The string `pay_string.lower().strip()` the typed patterns run
against. -/
def payStringLower (ps : String) : List Char :=
  stripL (ps.toList.map Char.toLower)

/-- PayNormalizer.normalize: ordered cascade hourly → weekly → annual →
bare-dollar fallback over the lowered, stripped input; falsy input is the
explicit no-result. -/
def normalize (pn : PayNormalizer) (pay_string : Option String) :
    Except String (Option PayResult) :=
  match pay_string with
  | none => .ok none
  | some ps =>
    if ps = "" then .ok none
    else
      match tryHourly (payStringLower ps) ps with
      | some r => .ok (some r)
      | none =>
        match tryWeekly pn (payStringLower ps) ps with
        | .error e => .error e
        | .ok (some r) => .ok (some r)
        | .ok none =>
          match tryAnnual pn ((payStringLower ps).contains 'k')
              (payStringLower ps) ps with
          | .error e => .error e
          | .ok (some r) => .ok (some r)
          | .ok none => tryFallback pn ps

/-- PayNormalizer.get_midpoint: null-safe average of the bounds. -/
def get_midpoint (normalized : Option PayResult) : Option ℚ :=
  match normalized with
  | none => none
  | some r => some ((r.low + r.high) / 2)

end Scraper

namespace Scraper

/-! ## Record store (src/database/connection.py, src/database/models.py)

The committed table is a `List HealthcareJob`; the SQLAlchemy session is
modelled by threading the working row list through the batch loop (the
sessionmaker default `autoflush=True` makes pending inserts visible to
`session.query`), committing it only when the loop finishes and
discarding it (rollback) when any item raises. `datetime.now()` is a
`Nat` clock that ticks once per processed item. -/

/-- Incoming job dictionary: every `job_data.get(...)` key, each
optional. -/
structure JobData where
  job_title : Option String := none
  specialty : Option String := none
  facility_name : Option String := none
  location : Option String := none
  pay_raw : Option String := none
  pay_rate_low : Option ℚ := none
  pay_rate_high : Option ℚ := none
  pay_type : Option String := none
  shift_type : Option String := none
  employment_type : Option String := none
  source : Option String := none
  source_url : Option String := none
  search_query : Option String := none
deriving Repr, DecidableEq

/-- Stored row of the healthcare_jobs table (the columns the upsert
touches, with the server-default timestamps as the item clock). -/
structure HealthcareJob where
  job_title : Option String
  specialty : Option String
  facility_name : Option String
  city : Option String
  state : Option String
  location : Option String
  pay_raw : Option String
  pay_rate_low : Option ℚ
  pay_rate_high : Option ℚ
  pay_type : Option String
  shift_type : Option String
  employment_type : Option String
  source : Option String
  source_url : Option String
  search_query : Option String
  first_seen : Nat
  last_seen : Nat
deriving Repr, DecidableEq

/-- Strip ASCII whitespace from both ends of a string. -/
def pyStripStr (s : String) : String := String.mk (stripL s.toList)

/-- Python `str.split(c)` on a single-character separator: segments
between occurrences of `c`, keeping empty segments (`"".split(c)` is
`[""]`). -/
def pySplitChar (sep : Char) : List Char → List (List Char)
  | [] => [[]]
  | c :: cs =>
    if c == sep then [] :: pySplitChar sep cs
    else
      match pySplitChar sep cs with
      | [] => [[c]]
      | p :: ps => (c :: p) :: ps

/-- Python `str.split()` (no argument): whitespace-delimited tokens,
dropping empties. -/
def pySplitWs (cs : List Char) : List (List Char) :=
  (pySplitChar ' ' ((cs.map (fun c => if pyWs c then ' ' else c)))).filter
    (fun t => t ≠ [])

/-- DatabaseManager._parse_location: split a combined location string on
commas; city is the stripped text before the first comma and state the
first whitespace token of the segment after it — which raises IndexError
when that segment has no token. -/
def parse_location (location : Option String) :
    Except String (Option String × Option String) :=
  match location with
  | none => .ok (none, none)
  | some loc =>
    if loc = "" then .ok (none, none)
    else
      let parts := pySplitChar ',' loc.toList
      if 2 ≤ parts.length then
        let city := stripL (parts.getD 0 [])
        let tokens := pySplitWs (stripL (parts.getD 1 []))
        match tokens with
        | [] => .error "IndexError"
        | t :: _ => .ok (some (String.mk city), some (String.mk t))
      else .ok (some loc, none)

/-- Python truthiness of an optional string (`None` and `""` are falsy). -/
def truthyStr : Option String → Option String
  | some s => if s = "" then none else some s
  | none => none

/-- New HealthcareJob record built from an incoming dictionary in the
insert branch; the server-default timestamps stamp the current clock. -/
def mkRow (j : JobData) (city state : Option String) (t : Nat) : HealthcareJob :=
  { job_title := j.job_title
    specialty := j.specialty
    facility_name := j.facility_name
    city := city
    state := state
    location := j.location
    pay_raw := j.pay_raw
    pay_rate_low := j.pay_rate_low
    pay_rate_high := j.pay_rate_high
    pay_type := j.pay_type
    shift_type := j.shift_type
    employment_type := j.employment_type
    source := j.source
    source_url := j.source_url
    search_query := j.search_query
    first_seen := t
    last_seen := t }

/-- Update branch: set `last_seen` on the first row whose `source_url`
matches, leaving every other field and every other row unchanged. -/
def updateFirstMatch (rows : List HealthcareJob) (u : String) (t : Nat) :
    List HealthcareJob :=
  match rows with
  | [] => []
  | r :: rest =>
    if r.source_url = some u then { r with last_seen := t } :: rest
    else r :: updateFirstMatch rest u t

/-- One iteration of the add_jobs loop: look up the identity key, then
either touch `last_seen` (update) or parse the location and append a new
row (insert); returns whether the item was new. -/
def processJob (rows : List HealthcareJob) (j : JobData) (t : Nat) :
    Except String (List HealthcareJob × Bool) :=
  let insertNew : Except String (List HealthcareJob × Bool) :=
    match parse_location j.location with
    | .error e => .error e
    | .ok (city, state) => .ok (rows ++ [mkRow j city state t], true)
  match truthyStr j.source_url with
  | some u =>
    if (rows.find? (fun r => decide (r.source_url = some u))).isSome then
      .ok (updateFirstMatch rows u t, false)
    else insertNew
  | none => insertNew

/-- The add_jobs batch loop: process items in input order on the working
session, accumulating (new, updated) counts; the first raised error
aborts the loop. -/
def addJobsLoop (rows : List HealthcareJob) (jobs : List JobData) (t : Nat)
    (nc uc : Nat) : Except String (List HealthcareJob × Nat × Nat) :=
  match jobs with
  | [] => .ok (rows, nc, uc)
  | j :: rest =>
    match processJob rows j t with
    | .ok (rows', isNew) =>
      addJobsLoop rows' rest (t + 1) (if isNew then nc + 1 else nc)
        (if isNew then uc else uc + 1)
    | .error e => .error e

/-- DatabaseManager.add_jobs: run the batch loop in one session; commit
the whole batch on success, roll back to the incoming table and re-raise
on any error. Returns the resulting table and either the counts or the
propagated error. -/
def add_jobs (db : List HealthcareJob) (jobs : List JobData) (t0 : Nat) :
    List HealthcareJob × Except String (Nat × Nat) :=
  match addJobsLoop db jobs t0 0 0 with
  | .ok (rows, nc, uc) => (rows, .ok (nc, uc))
  | .error e => (db, .error e)

/-! ## Fetch governor (src/scrapers/base_scraper.py) -/

/-- Per-session robots state of BaseScraper: the single `_robots_checked`
flag, the origin whose robots.txt the parser holds, and the log of
origins actually fetched. -/
structure ScraperState where
  respect_robots : Bool
  robots_checked : Bool
  robots_origin : Option String
  fetched_origins : List String
deriving Repr, DecidableEq

/-- A freshly initialized scraper with robots checking enabled. -/
def freshScraper : ScraperState :=
  { respect_robots := true, robots_checked := false, robots_origin := none
    fetched_origins := [] }

/-- Split a character list at the first occurrence of `sep`, returning
the parts before and after it. -/
def splitFirst (sep : List Char) : List Char → Option (List Char × List Char)
  | [] => if sep = [] then some ([], []) else none
  | c :: cs =>
    if sep.isPrefixOf (c :: cs) then some ([], (c :: cs).drop sep.length)
    else
      match splitFirst sep cs with
      | some (pre, post) => some (c :: pre, post)
      | none => none

/-- Origin (`scheme://netloc`) of a URL, as `urlparse` extracts it for
the robots.txt address. -/
def originOf (url : String) : String :=
  match splitFirst [':', '/', '/'] url.toList with
  | some (scheme, rest) =>
    String.mk (scheme ++ [':', '/', '/'] ++ rest.takeWhile (fun c => c ≠ '/'))
  | none => "://"

/-- BaseScraper.check_robots_txt: fetch the robots.txt parser only when
the session-wide flag is unset (recording which origin it was fetched
for), then evaluate `can_fetch` for the URL against whatever parser the
session holds. `env origin url` is the directive the origin's robots.txt
gives for the URL. -/
def check_robots_txt (env : String → String → Bool) (st : ScraperState)
    (url : String) : Bool × ScraperState :=
  if !st.respect_robots then (true, st)
  else
    let origin := originOf url
    let st' :=
      if !st.robots_checked then
        { st with robots_checked := true, robots_origin := some origin,
                  fetched_origins := st.fetched_origins ++ [origin] }
      else st
    (env (st'.robots_origin.getD "") url, st')

/-- Derived request rate of BaseScraper.log_request:
requests per minute over the elapsed session seconds, zero on a
zero-length session. -/
def request_rate (count : Nat) (elapsed : ℚ) : ℚ :=
  if 0 < elapsed then (count : ℚ) / (elapsed / 60) else 0

/-- Extra penalty sleep BaseScraper.log_request adds after counting the
new request: 10 seconds above 15 requests/minute, otherwise 5 seconds
above 10 requests/minute, otherwise none. -/
def log_request_penalty (request_count : Nat) (elapsed : ℚ) : ℚ :=
  let rate := request_rate (request_count + 1) elapsed
  if 15 < rate then 10 else if 10 < rate then 5 else 0

end Scraper

namespace Scraper

/-! ## Theorems -/

/-- The batch loop accounts for every input item exactly once when it
succeeds. -/
theorem addJobsLoop_counts :
    ∀ (jobs : List JobData) (rows : List HealthcareJob) (t nc uc : Nat)
      (r : List HealthcareJob) (n u : Nat),
      addJobsLoop rows jobs t nc uc = .ok (r, n, u) → n + u = nc + uc + jobs.length
  | [], rows, t, nc, uc, r, n, u, h => by
    simp only [addJobsLoop, Except.ok.injEq, Prod.mk.injEq] at h
    obtain ⟨-, h2, h3⟩ := h
    simp [← h2, ← h3]
  | j :: rest, rows, t, nc, uc, r, n, u, h => by
    unfold addJobsLoop at h
    cases hp : processJob rows j t with
    | error e => rw [hp] at h; exact absurd h (by simp)
    | ok pr =>
      rw [hp] at h
      have := addJobsLoop_counts rest pr.1 (t + 1)
        (if pr.2 then nc + 1 else nc) (if pr.2 then uc else uc + 1) r n u h
      cases hb : pr.2 <;> rw [hb] at this <;> simp at this <;>
        simp only [List.length_cons] <;> omega

/-- C1: any per-item error while persisting a batch rolls the whole batch
back — the committed table is exactly the incoming one and the error is
surfaced — while a successful batch commits with every item counted
exactly once (no partial commit). -/
theorem add_jobs_batch_atomic (db : List HealthcareJob) (jobs : List JobData)
    (t0 : Nat) :
    (∀ e, (add_jobs db jobs t0).2 = .error e → (add_jobs db jobs t0).1 = db) ∧
    (∀ nc uc, (add_jobs db jobs t0).2 = .ok (nc, uc) → nc + uc = jobs.length) := by
  unfold add_jobs
  cases h : addJobsLoop db jobs t0 0 0 with
  | error e => exact ⟨fun _ _ => rfl, fun nc uc hh => absurd hh (by simp)⟩
  | ok res =>
    obtain ⟨rows, n, u⟩ := res
    refine ⟨fun e hh => absurd hh (by simp), fun nc uc hh => ?_⟩
    simp only [Except.ok.injEq, Prod.mk.injEq] at hh
    obtain ⟨h1, h2⟩ := hh
    have := addJobsLoop_counts jobs db t0 0 0 rows n u h
    omega

/-- Job with a well-formed location, used to exercise the store. -/
def jdGood : JobData :=
  { job_title := some "RN", source_url := some "http://x/1",
    location := some "Boston, MA" }

/-- Job whose location has nothing after the comma, so persisting it
raises IndexError. -/
def jdBadLoc : JobData :=
  { job_title := some "LPN", source_url := some "http://x/2",
    location := some "Nowhere," }

/-- C1 witness: a concrete two-item batch whose second item raises; the
error propagates and the first item is rolled back with it. -/
theorem add_jobs_batch_atomic_witness :
    (add_jobs [] [jdGood, jdBadLoc] 0).2 = Except.error "IndexError" ∧
    (add_jobs [] [jdGood, jdBadLoc] 0).1 = [] :=
  ⟨by rfl,
   (add_jobs_batch_atomic [] [jdGood, jdBadLoc] 0).1 "IndexError" (by rfl)⟩

/-- C8: once the derived request rate is above 15 requests/minute the
next delay carries the 10-second penalty, and above 10 requests/minute it
carries at least the 5-second penalty. -/
theorem log_request_penalty_thresholds (request_count : Nat) (elapsed : ℚ) :
    (15 < request_rate (request_count + 1) elapsed →
      log_request_penalty request_count elapsed = 10) ∧
    (10 < request_rate (request_count + 1) elapsed →
      5 ≤ log_request_penalty request_count elapsed) := by
  unfold log_request_penalty
  constructor
  · intro h
    simp [h]
  · intro h
    by_cases h15 : 15 < request_rate (request_count + 1) elapsed
    · simp only [h15, if_true]
      norm_num
    · simp [h15, h]

/-- C8 witness: 30 requests in one minute is over both thresholds and
draws the full 10-second penalty. -/
theorem log_request_penalty_thresholds_witness :
    15 < request_rate 30 60 ∧ log_request_penalty 29 60 = 10 :=
  ⟨by norm_num [request_rate],
   (log_request_penalty_thresholds 29 60).1 (by norm_num [request_rate])⟩

end Scraper

namespace Scraper

/-- C9 counterexample: a combined location with nothing after the comma
does not yield a (city, state) pair — the store raises IndexError. -/
theorem parse_location_trailing_comma_cex :
    parse_location (some "Boston,") = .error "IndexError" := by rfl

/-- C9 (amended): location normalization splits on commas — empty or
absent input yields (none, none); with at least two comma segments the
city is the stripped text before the first comma and the state the first
whitespace token of the segment between the first and second commas,
raising IndexError when that segment has no token; and with no comma the
whole string is returned as city. -/
theorem parse_location_split_behavior :
    parse_location none = .ok (none, none) ∧
    parse_location (some "") = .ok (none, none) ∧
    (∀ loc p0 p1 ps, loc ≠ "" → pySplitChar ',' loc.toList = p0 :: p1 :: ps →
      (∀ t ts, pySplitWs (stripL p1) = t :: ts →
        parse_location (some loc) =
          .ok (some (String.mk (stripL p0)), some (String.mk t))) ∧
      (pySplitWs (stripL p1) = [] →
        parse_location (some loc) = .error "IndexError")) ∧
    (∀ loc p0, loc ≠ "" → pySplitChar ',' loc.toList = [p0] →
      parse_location (some loc) = .ok (some loc, none)) := by
  refine ⟨rfl, rfl, ?_, ?_⟩
  · intro loc p0 p1 ps hne hsplit
    simp only [String.toList] at hsplit
    constructor
    · intro t ts htok
      simp [parse_location, hne, hsplit, htok]
    · intro htok
      simp [parse_location, hne, hsplit, htok]
  · intro loc p0 hne hsplit
    simp only [String.toList] at hsplit
    simp [parse_location, hne, hsplit]

/-- C9 amended witness: a well-formed "City, ST Zip" location parses to
city "Boston" and state "MA". -/
theorem parse_location_split_behavior_witness :
    parse_location (some "Boston, MA 02118") = .ok (some "Boston", some "MA") :=
  (parse_location_split_behavior.2.2.1 "Boston, MA 02118"
      "Boston".toList " MA 02118".toList [] (by decide) (by decide)).1
    "MA".toList ["02118".toList] (by decide)

/-- Allow-list robots directive used to separate the two origins: origin
a.com permits everything, origin b.com permits nothing. -/
def demoRobots (origin : String) (_url : String) : Bool :=
  origin == "https://a.com"

/-- C4 counterexample: after a first check against a.com, a URL on b.com
is judged by a.com's directive — it is reported allowed although its own
origin's directive forbids it, and b.com's directive is never fetched
(the fetch log still holds only a.com). -/
theorem check_robots_txt_shared_flag_cex :
    (check_robots_txt demoRobots
        (check_robots_txt demoRobots freshScraper "https://a.com/jobs").2
        "https://b.com/jobs").1 = true ∧
    demoRobots (originOf "https://b.com/jobs") "https://b.com/jobs" = false ∧
    (check_robots_txt demoRobots
        (check_robots_txt demoRobots freshScraper "https://a.com/jobs").2
        "https://b.com/jobs").2.fetched_origins = ["https://a.com"] := by
  refine ⟨by rfl, by rfl, by rfl⟩

/-- C4 (amended): the robots directive is fetched once per session — for
the origin of the first URL checked — and every later URL, from any
origin, is evaluated against that first origin's directive with no
further fetch. -/
theorem check_robots_txt_first_origin (env : String → String → Bool)
    (st : ScraperState) (url : String) :
    (st.respect_robots = true → st.robots_checked = false →
      check_robots_txt env st url =
        (env (originOf url) url,
         { st with robots_checked := true, robots_origin := some (originOf url),
                   fetched_origins := st.fetched_origins ++ [originOf url] })) ∧
    (st.respect_robots = true → st.robots_checked = true →
      check_robots_txt env st url = (env (st.robots_origin.getD "") url, st)) := by
  constructor
  · intro hr hc
    unfold check_robots_txt
    rw [hr, hc]
    simp
  · intro hr hc
    unfold check_robots_txt
    rw [hr, hc]
    simp

/-- C4 amended witness: the second check of the session evaluates a
b.com URL against a.com's directive without touching the state. -/
theorem check_robots_txt_first_origin_witness :
    check_robots_txt demoRobots
        ⟨true, true, some "https://a.com", ["https://a.com"]⟩ "https://b.com/jobs" =
      (demoRobots "https://a.com" "https://b.com/jobs",
       ⟨true, true, some "https://a.com", ["https://a.com"]⟩) :=
  (check_robots_txt_first_origin demoRobots
      ⟨true, true, some "https://a.com", ["https://a.com"]⟩ "https://b.com/jobs").2
    rfl rfl

end Scraper

namespace Scraper

/-- C2: a posting whose source_url matches a stored row only advances
that row's `last_seen` (every other field and row untouched) and counts
as an update; hence submitting the same single-item batch twice yields
(1,0) then (0,1) with the stored row keeping all first-seen fields and
only `last_seen` advancing. -/
theorem add_jobs_match_updates_only_last_seen :
    (∀ (db : List HealthcareJob) (j : JobData) (t : Nat) (u : String),
      j.source_url = some u → u ≠ "" →
      (db.find? (fun r => decide (r.source_url = some u))).isSome = true →
      add_jobs db [j] t = (updateFirstMatch db u t, .ok (0, 1))) ∧
    (∀ (j : JobData) (t0 t1 : Nat) (u : String) (c s : Option String),
      j.source_url = some u → u ≠ "" →
      parse_location j.location = .ok (c, s) →
      add_jobs [] [j] t0 = ([mkRow j c s t0], .ok (1, 0)) ∧
      add_jobs [mkRow j c s t0] [j] t1 =
        ([{ mkRow j c s t0 with last_seen := t1 }], .ok (0, 1))) := by
  constructor
  · intro db j t u hu hne hex
    simp [add_jobs, addJobsLoop, processJob, truthyStr, hu, hne, hex]
  · intro j t0 t1 u c s hu hne hloc
    constructor
    · simp [add_jobs, addJobsLoop, processJob, truthyStr, hu, hne, hloc]
    · simp [add_jobs, addJobsLoop, processJob, truthyStr, hu, hne, mkRow,
        updateFirstMatch]

/-- C2 witness: inserting a concrete posting then resubmitting it —
counts (1,0) then (0,1), all fields frozen except `last_seen`. -/
theorem add_jobs_match_updates_only_last_seen_witness :
    add_jobs [] [jdGood] 0 =
      ([mkRow jdGood (some "Boston") (some "MA") 0], .ok (1, 0)) ∧
    add_jobs [mkRow jdGood (some "Boston") (some "MA") 0] [jdGood] 1 =
      ([{ mkRow jdGood (some "Boston") (some "MA") 0 with last_seen := 1 }],
       .ok (0, 1)) :=
  add_jobs_match_updates_only_last_seen.2 jdGood 0 1 "http://x/1"
    (some "Boston") (some "MA") rfl (by decide) (by rfl)

/-- When no element of the first list satisfies the predicate, searching
the concatenation searches the second list. -/
theorem find?_append_of_none {α : Type} {p : α → Bool} {l1 : List α}
    (h : l1.find? p = none) (l2 : List α) :
    (l1 ++ l2).find? p = l2.find? p := by
  rw [List.find?_append, h]
  rfl

/-- Rows without the identity key pass through the update untouched. -/
theorem updateFirstMatch_append_of_no_match (rows l2 : List HealthcareJob)
    (u : String) (t : Nat) (h : ∀ r ∈ rows, r.source_url ≠ some u) :
    updateFirstMatch (rows ++ l2) u t = rows ++ updateFirstMatch l2 u t := by
  induction rows with
  | nil => rfl
  | cons x rest ih =>
    have hx : x.source_url ≠ some u := h x (by simp)
    simp only [List.cons_append, updateFirstMatch, if_neg hx, List.append_eq]
    rw [ih (fun r hr => h r (by simp [hr]))]

/-- C3: a batch holding two postings with the same fresh source_url
resolves sequentially — the first occurrence is inserted, the second is
an update against that pending row, so the stored row keeps the first
occurrence's fields while `last_seen` takes the second occurrence's
timestamp, and the batch reports (1 new, 1 updated). -/
theorem add_jobs_within_batch_duplicate
    (db : List HealthcareJob) (j1 j2 : JobData) (t0 : Nat) (u : String)
    (c s : Option String)
    (h1 : j1.source_url = some u) (h2 : j2.source_url = some u) (hne : u ≠ "")
    (hdb : ∀ r ∈ db, r.source_url ≠ some u)
    (hloc : parse_location j1.location = .ok (c, s)) :
    add_jobs db [j1, j2] t0 =
      (db ++ [{ mkRow j1 c s t0 with last_seen := t0 + 1 }], .ok (1, 1)) := by
  have hfind : db.find? (fun r => decide (r.source_url = some u)) = none :=
    List.find?_eq_none.mpr (fun r hr => by simp [hdb r hr])
  have hp1 : processJob db j1 t0 = .ok (db ++ [mkRow j1 c s t0], true) := by
    simp [processJob, truthyStr, h1, hne, hfind, hloc]
  have hfind2 : ((db ++ [mkRow j1 c s t0]).find?
      (fun r => decide (r.source_url = some u))).isSome = true := by
    rw [find?_append_of_none hfind]
    simp [mkRow, h1]
  have hupd : updateFirstMatch (db ++ [mkRow j1 c s t0]) u (t0 + 1) =
      db ++ [{ mkRow j1 c s t0 with last_seen := t0 + 1 }] := by
    rw [updateFirstMatch_append_of_no_match db _ u (t0 + 1) hdb]
    simp [updateFirstMatch, mkRow, h1]
  have hp2 : processJob (db ++ [mkRow j1 c s t0]) j2 (t0 + 1) =
      .ok (db ++ [{ mkRow j1 c s t0 with last_seen := t0 + 1 }], false) := by
    simp [processJob, truthyStr, h2, hne, hfind2, hupd, -List.find?_append]
  simp [add_jobs, addJobsLoop, hp1, hp2]

/-- Second observation of the same posting, with a different title. -/
def jdGood2 : JobData :=
  { job_title := some "RN Night Shift", source_url := some "http://x/1",
    location := some "Boston, MA" }

/-- C3 witness: a concrete empty store receiving [jdGood, jdGood2] in
one batch keeps jdGood's fields, stamps `last_seen` with the second
item's clock, and reports (1,1). -/
theorem add_jobs_within_batch_duplicate_witness :
    add_jobs [] [jdGood, jdGood2] 0 =
      ([{ mkRow jdGood (some "Boston") (some "MA") 0 with last_seen := 1 }],
       .ok (1, 1)) :=
  add_jobs_within_batch_duplicate [] jdGood jdGood2 0 "http://x/1"
    (some "Boston") (some "MA") rfl rfl (by decide) (by simp) (by rfl)

end Scraper

namespace Scraper

/-- Division by a nonzero divisor never raises. -/
theorem qdiv_ok (a b : ℚ) (h : b ≠ 0) : qdiv a b = .ok (a / b) := by
  simp [qdiv, h]

end Scraper

namespace Scraper

/-- Evaluation rule for clean_number on an all-digit cleaned string. -/
theorem clean_number_int (cs ds : List Char)
    (h1 : cs ≠ [])
    (h2 : stripL (cs.filter (fun c => !(c == ',' || c == ' '))) = ds)
    (h3 : ds.all (fun c => c.isDigit || c == '.') = true ∧ ds.count '.' ≤ 1 ∧
          ds.any (fun c => c.isDigit) = true)
    (h4 : ds.takeWhile (fun c => c ≠ '.') = ds)
    (h5 : ds.dropWhile (fun c => c ≠ '.') = []) :
    clean_number cs = some (natOfDigits ds : ℚ) := by
  unfold clean_number parseDecimal
  rw [if_neg h1, h2, if_pos h3, h4, h5]
  norm_num [natOfDigits]

/-- C7: an annual match whose bounds are nonzero, below 1000 and
accompanied by a k marker multiplies both bounds by 1000 before dividing
by the annual-hours constant and rounding to cents. -/
theorem normalize_annual_k_multiplies (pn : PayNormalizer) (ps : String)
    (caps : Caps) (g1 g2 : List Char) (v w : ℚ)
    (hps : ps ≠ "")
    (hH : search HOURLY_PATTERN (payStringLower ps) = none)
    (hW : search WEEKLY_PATTERN (payStringLower ps) = none)
    (hA : search ANNUAL_PATTERN (payStringLower ps) = some caps)
    (hk : (payStringLower ps).contains 'k' = true)
    (hg1 : capGet caps 1 = some g1) (hcv : clean_number g1 = some v)
    (hv0 : v ≠ 0) (hvlt : v < 1000)
    (hg2 : capGet caps 2 = some g2) (hcw : clean_number g2 = some w)
    (hw0 : w ≠ 0) (hwlt : w < 1000)
    (ha : pn.annual_hours ≠ 0) :
    normalize pn (some ps) =
      .ok (some ⟨round2 (v * 1000 / pn.annual_hours),
        round2 (w * 1000 / pn.annual_hours), "annual_converted", ps⟩) := by
  have hvm : v * 1000 ≠ 0 := mul_ne_zero hv0 (by norm_num)
  have hwm : w * 1000 ≠ 0 := mul_ne_zero hw0 (by norm_num)
  have hkv : kAdjust true (some v) = some (v * 1000) := by
    simp [kAdjust, hv0, hvlt]
  have hkw : kAdjust true (some w) = some (w * 1000) := by
    simp [kAdjust, hw0, hwlt]
  simp only [normalize, if_neg hps, tryHourly, hH, tryWeekly, hW, tryAnnual,
    hA, hk, hg1, Option.getD_some, hcv, hg2, hcw, hkv, hkw, if_neg hvm,
    if_neg hwm, qdiv_ok _ _ ha]

/-- C7 witness (spec Scenario C): "$95k - $110k per year" under the
2080-hour default yields 45.67–52.88 hourly with type annual_converted. -/
theorem normalize_annual_k_multiplies_witness :
    normalize ⟨36, 2080⟩ (some "$95k - $110k per year") =
      .ok (some ⟨4567/100, 5288/100, "annual_converted",
        "$95k - $110k per year"⟩) := by
  have h95 : clean_number ['9', '5'] = some 95 := by
    rw [clean_number_int ['9', '5'] ['9', '5'] (by decide) (by decide)
      ⟨by decide, by decide, by decide⟩ (by decide) (by decide)]
    norm_num [show natOfDigits ['9', '5'] = 95 from by decide]
  have h110 : clean_number ['1', '1', '0'] = some 110 := by
    rw [clean_number_int ['1', '1', '0'] ['1', '1', '0'] (by decide) (by decide)
      ⟨by decide, by decide, by decide⟩ (by decide) (by decide)]
    norm_num [show natOfDigits ['1', '1', '0'] = 110 from by decide]
  have main := normalize_annual_k_multiplies ⟨36, 2080⟩ "$95k - $110k per year"
    [(2, ['1', '1', '0']), (1, ['9', '5'])] ['9', '5'] ['1', '1', '0'] 95 110
    (by decide) (by decide) (by decide) (by decide) (by decide) (by decide)
    h95 (by norm_num) (by norm_num) (by decide) h110 (by norm_num)
    (by norm_num) (by norm_num)
  rw [main]
  norm_num [round2, roundHalfEven]

/-- C10: in every typed branch — hourly, weekly or annual — a match
whose group-1 amount cleans to zero is treated as absent and the branch
yields no result, so control falls through; consequently, when each
typed branch yields nothing and every extracted bare amount is zero, the
whole normalization is the explicit no-result. -/
theorem normalize_zero_typed_amount (pn : PayNormalizer) :
    (∀ (cs : List Char) (ps : String) (caps : Caps) (g1 : List Char),
      search HOURLY_PATTERN cs = some caps → capGet caps 1 = some g1 →
      clean_number g1 = some 0 → tryHourly cs ps = none) ∧
    (∀ (cs : List Char) (ps : String) (caps : Caps) (g1 : List Char),
      search WEEKLY_PATTERN cs = some caps → capGet caps 1 = some g1 →
      clean_number g1 = some 0 → tryWeekly pn cs ps = .ok none) ∧
    (∀ (hasK : Bool) (cs : List Char) (ps : String) (caps : Caps)
        (g1 : List Char),
      search ANNUAL_PATTERN cs = some caps → capGet caps 1 = some g1 →
      clean_number g1 = some 0 → tryAnnual pn hasK cs ps = .ok none) ∧
    (∀ ps : String, ps ≠ "" →
      tryHourly (payStringLower ps) ps = none →
      tryWeekly pn (payStringLower ps) ps = .ok none →
      tryAnnual pn ((payStringLower ps).contains 'k') (payStringLower ps) ps
        = .ok none →
      payValues ps = [] →
      normalize pn (some ps) = .ok none) := by
  refine ⟨?_, ?_, ?_, ?_⟩
  · intro cs ps caps g1 hH hg1 hz
    simp [tryHourly, hH, hg1, hz]
  · intro cs ps caps g1 hW hg1 hz
    simp [tryWeekly, hW, hg1, hz]
  · intro hasK cs ps caps g1 hA hg1 hz
    simp [tryAnnual, hA, hg1, hz, kAdjust]
  · intro ps hps h1 h2 h3 hpv
    simp only [normalize, if_neg hps, h1, h2, h3, tryFallback, hpv]

/-- C10 witness: "$0/hr", "$0/week" and "$0/yr" each match their typed
pattern with amount 0, each branch yields nothing, and "$0/hr" and
"$0/week" normalize all the way to the no-result value. -/
theorem normalize_zero_typed_amount_witness :
    tryHourly (payStringLower "$0/hr") "$0/hr" = none ∧
    tryWeekly ⟨36, 2080⟩ (payStringLower "$0/week") "$0/week" = .ok none ∧
    tryAnnual ⟨36, 2080⟩ false (payStringLower "$0/yr") "$0/yr" = .ok none ∧
    normalize ⟨36, 2080⟩ (some "$0/hr") = .ok none ∧
    normalize ⟨36, 2080⟩ (some "$0/week") = .ok none := by
  have h0 : clean_number ['0'] = some 0 := by
    rw [clean_number_int ['0'] ['0'] (by decide) (by decide)
      ⟨by decide, by decide, by decide⟩ (by decide) (by decide)]
    norm_num [show natOfDigits ['0'] = 0 from by decide]
  have main := normalize_zero_typed_amount ⟨36, 2080⟩
  have hH1 : tryHourly (payStringLower "$0/hr") "$0/hr" = none :=
    main.1 (payStringLower "$0/hr") "$0/hr" [(1, ['0'])] ['0'] (by decide)
      (by decide) h0
  have hW2 : tryWeekly ⟨36, 2080⟩ (payStringLower "$0/week") "$0/week"
      = .ok none :=
    main.2.1 (payStringLower "$0/week") "$0/week" [(1, ['0'])] ['0']
      (by decide) (by decide) h0
  have hA3 : tryAnnual ⟨36, 2080⟩ false (payStringLower "$0/yr") "$0/yr"
      = .ok none :=
    main.2.2.1 false (payStringLower "$0/yr") "$0/yr" [(1, ['0'])] ['0']
      (by decide) (by decide) h0
  have hpv1 : payValues "$0/hr" = [] := by
    have hf : findall SIMPLE_DOLLAR ['$', '0', '/', 'h', 'r'] = [['0']] := by
      decide
    simp [payValues, hf, h0]
  have hpv2 : payValues "$0/week" = [] := by
    have hf : findall SIMPLE_DOLLAR ['$', '0', '/', 'w', 'e', 'e', 'k']
        = [['0']] := by decide
    simp [payValues, hf, h0]
  have n1 : normalize ⟨36, 2080⟩ (some "$0/hr") = .ok none :=
    main.2.2.2 "$0/hr" (by decide) hH1
      (by simp [tryWeekly,
        (by decide : search WEEKLY_PATTERN (payStringLower "$0/hr") = none)])
      (by simp [tryAnnual,
        (by decide : search ANNUAL_PATTERN (payStringLower "$0/hr") = none)])
      hpv1
  have n2 : normalize ⟨36, 2080⟩ (some "$0/week") = .ok none :=
    main.2.2.2 "$0/week" (by decide)
      (by simp [tryHourly,
        (by decide : search HOURLY_PATTERN (payStringLower "$0/week") = none)])
      hW2
      (by simp [tryAnnual,
        (by decide : search ANNUAL_PATTERN (payStringLower "$0/week") = none)])
      hpv2
  exact ⟨hH1, hW2, hA3, n1, n2⟩

end Scraper
